import Mathlib

/-!
Shallow embedding of the multi-agent context-engineering pipeline
(`messages.py`, `agents.py`, `workflow.py`) together with proofs of the
specification's claims about it.

Modelling conventions:
* Python strings are Lean `String`s; `s[:n]` is code-point `take`, matching
  Python's code-point slicing.
* `Dict[str, Any]` fields that the core only passes through (`context`,
  `metadata`) are modelled as association lists with string values.
* The remote text-generation client (`self.llm.invoke`) is an external
  collaborator.  It is modelled as an oracle indexed by the call number of
  the owning agent: `llm idx system_prompt user_prompt` is the text returned
  by the idx-th invocation, or a `GenerationError` (rate limit / timeout /
  invalid response).  Each agent additionally carries `callLog`, an
  instrumentation list of (user prompt, returned text) pairs describing the
  successful client invocations it has made; the call index is its length.
* `datetime.now()` timestamps and wall-clock `time_taken` are outside the
  embedding: message timestamps are abstract `Nat` parameters and
  `time_taken` is fixed to `0`.
* The Python `while` loop in `MultiAgentWorkflow.run` is embedded with an
  explicit fuel argument; `run` supplies fuel `max_iterations - 1`, which is
  exactly the maximal number of passes of the source loop (the counter
  starts at 1 and the loop requires `iterations < max_iterations`), so the
  fuel never truncates the loop.  A fuel-irrelevance lemma below certifies
  this.
-/

/-- Message type enumeration from `messages.py` (`MessageType`). -/
inductive MessageType where
  | query
  | response
  | critique
  | context_update
  | error
deriving DecidableEq, Repr

/-- `AgentMessage` from `messages.py`: the standard message envelope. -/
structure AgentMessage where
  sender : String
  recipient : String
  message_type : MessageType
  content : String
  context : List (String × String)
  metadata : List (String × String)
  timestamp : Nat
deriving DecidableEq, Repr

/-- `AgentMessage.to_prompt_context`: renders `[sender -> recipient]: content`. -/
def AgentMessage.to_prompt_context (m : AgentMessage) : String :=
  "[" ++ m.sender ++ " -> " ++ m.recipient ++ "]: " ++ m.content

/-- `MessageHistory` from `messages.py`: append-only list of messages. -/
structure MessageHistory where
  messages : List AgentMessage
deriving DecidableEq, Repr

/-- `MessageHistory.add_message`: Python `list.append`, i.e. append at the end. -/
def MessageHistory.add_message (h : MessageHistory) (m : AgentMessage) : MessageHistory :=
  { messages := h.messages ++ [m] }

/-- Python negative slice `l[-n:]` for `n ≥ 1`: the last `n` elements
(the whole list when it is shorter than `n`). -/
def pySliceLast (n : Nat) (l : List α) : List α :=
  l.drop (l.length - n)

/-- `MessageHistory.get_recent_messages`: `self.messages[-n:] if self.messages else []`.
Python's `[-0:]` is `[0:]`, the whole list. -/
def MessageHistory.get_recent_messages (h : MessageHistory) (n : Nat) : List AgentMessage :=
  if h.messages.isEmpty then []
  else if n = 0 then h.messages
  else pySliceLast n h.messages

/-- `MessageHistory.get_conversation_context`: the sentinel string on an empty
history, otherwise the header line followed by the last 10 messages, each
rendered by `to_prompt_context` and terminated by a newline (the Python
`for` loop appending `f"{msg.to_prompt_context()}\n"` to the header). -/
def MessageHistory.get_conversation_context (h : MessageHistory) : String :=
  if h.messages.isEmpty then "No previous conversation."
  else (pySliceLast 10 h.messages).foldl
    (fun ctx msg => ctx ++ msg.to_prompt_context ++ "\n")
    "Previous conversation:\n"

/-- `MessageHistory.clear`. -/
def MessageHistory.clear (_h : MessageHistory) : MessageHistory :=
  { messages := [] }

/-- Failure modes of the remote text-generation client (spec §6/§7:
`RateLimitError`, `TimeoutError`, `InvalidResponseError`). -/
inductive GenerationError where
  | rateLimit
  | timeout
  | invalidResponse
deriving DecidableEq, Repr

/-- `BaseAgent` from `agents.py`.  `llm` is the oracle for the bound
text-generation client, indexed by the agent's call number; `callLog`
instruments the successful client calls (user prompt, returned text). -/
structure BaseAgent where
  agent_id : String
  role : String
  model_name : String
  llm : Nat → String → String → Except GenerationError String
  callLog : List (String × String)
  memory : MessageHistory
  system_prompt : String

/-- One invocation of the agent's text-generation client
(`self.llm.invoke(messages)` with the agent's system prompt): consults the
oracle at the current call index and records the call on success. -/
def BaseAgent.invoke (a : BaseAgent) (user_prompt : String) :
    Except GenerationError (String × BaseAgent) :=
  match a.llm a.callLog.length a.system_prompt user_prompt with
  | Except.ok content =>
      Except.ok (content, { a with callLog := a.callLog ++ [(user_prompt, content)] })
  | Except.error e => Except.error e

/-- `BaseAgent.process`: append the incoming message, build the prompt from
the conversation context, invoke the client, wrap the reply in a response
message addressed back to the sender (carrying the incoming context map and
stamping the model name), append it, and return it.  `now` stands for
`datetime.now()` at response creation. -/
def BaseAgent.process (a : BaseAgent) (message : AgentMessage) (now : Nat) :
    Except GenerationError (AgentMessage × BaseAgent) :=
  let a1 : BaseAgent := { a with memory := a.memory.add_message message }
  let context := a1.memory.get_conversation_context
  let prompt := context ++ "\n\nCurrent message: " ++ message.content ++ "\n\nYour response:"
  match a1.invoke prompt with
  | Except.error e => Except.error e
  | Except.ok (content, a2) =>
      let response_msg : AgentMessage := {
        sender := a.agent_id
        recipient := message.sender
        message_type := MessageType.response
        content := content
        context := message.context
        metadata := [("model", a.model_name)]
        timestamp := now }
      Except.ok (response_msg, { a2 with memory := a2.memory.add_message response_msg })

/-- The f-string prompt of `RetrieverAgent.search` (exact text, including the
source's 8-space indentation). -/
def searchPrompt (query : String) : String :=
  "Given the query: \"" ++ query ++ "\"\n        \n        Provide relevant information that would help answer this query.\n        Focus on facts, definitions, and key concepts.\n        If you don't have specific information, provide general context."

/-- The f-string prompt of `SynthesizerAgent.synthesize` (exact text). -/
def synthesizePrompt (query retrieved_info : String) : String :=
  "Original query: \"" ++ query ++ "\"\n        \n        Retrieved information:\n        " ++ retrieved_info ++ "\n        \n        Please synthesize this information into a clear, comprehensive answer.\n        Ensure the response is well-structured and directly addresses the query."

/-- The f-string prompt of `CriticAgent.critique` (exact text). -/
def critiquePrompt (query response : String) : String :=
  "Original query: \"" ++ query ++ "\"\n        \n        Response to evaluate:\n        " ++ response ++ "\n        \n        Please evaluate this response for:\n        1. Accuracy and factual correctness\n        2. Completeness in addressing the query\n        3. Clarity and coherence\n        4. Any potential hallucinations or unsupported claims\n        \n        Provide:\n        - A quality score (1-10)\n        - Specific issues found\n        - Suggested improvements\n        - A revised response if needed"

/-- `RetrieverAgent.search(query, sources)`: one direct client call with the
retrieval prompt.  `sources` is the unused optional hint parameter. -/
def BaseAgent.search (a : BaseAgent) (query : String)
    (_sources : Option (List (String × String))) :
    Except GenerationError (String × BaseAgent) :=
  a.invoke (searchPrompt query)

/-- `SynthesizerAgent.synthesize(query, retrieved_info)`: one direct client
call with the synthesis prompt. -/
def BaseAgent.synthesize (a : BaseAgent) (query retrieved_info : String) :
    Except GenerationError (String × BaseAgent) :=
  a.invoke (synthesizePrompt query retrieved_info)

/-- `CritiqueResult`: the dict returned by `CriticAgent.critique`
(`score`, `critique`, `issues`, `improvements`; the last two always empty). -/
structure CritiqueResult where
  score : Nat
  critique : String
  issues : List String
  improvements : List String
deriving DecidableEq, Repr

/-- Does `needle` match at the head of `hay`? -/
def matchesAt : List Char → List Char → Bool
  | [], _ => true
  | _ :: _, [] => false
  | c :: cs, d :: ds => c == d && matchesAt cs ds

/-- Does `needle` occur as a contiguous run anywhere in `hay`?  (Python's
`needle in hay` on strings.) -/
def hasSub (needle : List Char) : List Char → Bool
  | [] => matchesAt needle []
  | c :: cs => matchesAt needle (c :: cs) || hasSub needle cs

/-- Python `needle in hay` for strings. -/
def strContains (hay needle : String) : Bool :=
  hasSub needle.toList hay.toList

/-- Python `s[:n]` (code-point slice). -/
def strTake (s : String) (n : Nat) : String :=
  String.mk (s.toList.take n)

/-- The score-extraction heuristic of `CriticAgent.critique`: default 7,
overridden by the first of "10", "9", "8", "6", "5" found as a substring of
the first 50 characters of the critique text ("7" is never checked). -/
def extractScore (critique_text : String) : Nat :=
  if strContains (strTake critique_text 50) "10" then 10
  else if strContains (strTake critique_text 50) "9" then 9
  else if strContains (strTake critique_text 50) "8" then 8
  else if strContains (strTake critique_text 50) "6" then 6
  else if strContains (strTake critique_text 50) "5" then 5
  else 7

/-- `CriticAgent.critique(query, response)`: one direct client call with the
critic prompt; the returned dict keeps the full raw critique text and the
heuristically extracted score, with empty `issues`/`improvements`. -/
def BaseAgent.critique (a : BaseAgent) (query response : String) :
    Except GenerationError (CritiqueResult × BaseAgent) :=
  match a.invoke (critiquePrompt query response) with
  | Except.error e => Except.error e
  | Except.ok (critique_text, a1) =>
      Except.ok ({ score := extractScore critique_text, critique := critique_text,
                   issues := [], improvements := [] }, a1)

/-- One entry of `MultiAgentWorkflow.interaction_log`: retriever and
synthesizer outputs are logged as (possibly truncated) strings, the critic's
output as the full structured `CritiqueResult`. -/
inductive LogEntry where
  | text (agent : String) (output : String)
  | crit (agent : String) (output : CritiqueResult)
deriving DecidableEq, Repr

/-- The `output[:200] + "..." if len(output) > 200 else output` truncation
used for retriever and synthesizer log entries. -/
def truncate200 (s : String) : String :=
  if s.toList.length > 200 then strTake s 200 ++ "..." else s

/-- `MultiAgentWorkflow`: owns the three agents and the instance-level
interaction log (initialised empty in `__init__`, never reset by `run`). -/
structure MultiAgentWorkflow where
  retriever : BaseAgent
  synthesizer : BaseAgent
  critic : BaseAgent
  interaction_log : List LogEntry

/-- The result dict assembled at the end of `MultiAgentWorkflow.run`.
`time_taken` (wall-clock) is outside the embedding and fixed to 0. -/
structure WorkflowResult where
  query : String
  final_response : String
  quality_score : Nat
  critique : String
  iterations : Nat
  time_taken : Nat
  interaction_log : List LogEntry
deriving DecidableEq, Repr

/-- Mutable state of the refinement `while` loop in `MultiAgentWorkflow.run`:
the two agents it calls, `current_response`, the latest `critique`, and the
iteration counter. -/
structure LoopState where
  synthesizer : BaseAgent
  critic : BaseAgent
  current_response : String
  critique : CritiqueResult
  iterations : Nat

/-- The refinement loop of `MultiAgentWorkflow.run`:
`while critique["score"] < 7 and iterations < max_iterations`, re-synthesize
from `synthesized_response` (the initial synthesis output — the source never
updates this variable inside the loop) plus the latest critique text, then
re-critique and increment the counter.  The structural `fuel` argument
bounds the recursion; `run` passes `max_iterations - 1`, which the loop
condition can never exhaust (see `runLoop_fuel_irrelevant`). -/
def runLoop (query synthesized_response : String) (max_iterations : Nat) :
    Nat → LoopState → Except GenerationError LoopState
  | 0, st => Except.ok st
  | fuel + 1, st =>
    if st.critique.score < 7 ∧ st.iterations < max_iterations then
      let refinement_prompt := synthesized_response ++ "\n\nCritique: " ++ st.critique.critique
      match st.synthesizer.synthesize query refinement_prompt with
      | Except.error e => Except.error e
      | Except.ok (current_response, syn1) =>
        match st.critic.critique query current_response with
        | Except.error e => Except.error e
        | Except.ok (crit1, cr1) =>
          runLoop query synthesized_response max_iterations fuel
            { synthesizer := syn1, critic := cr1, current_response := current_response,
              critique := crit1, iterations := st.iterations + 1 }
    else Except.ok st

/-- `MultiAgentWorkflow.run(query, max_iterations)` (Python default
`max_iterations = 2`): retrieve, log; synthesize, log; critique, log; then
the refinement loop (whose calls are not logged); finally assemble the
result dict.  A client failure propagates as the error together with the
workflow state at the point of failure (appends to the instance
`interaction_log` made before the failure persist, as in the source). -/
def MultiAgentWorkflow.run (wf : MultiAgentWorkflow) (query : String)
    (max_iterations : Nat) :
    Except GenerationError WorkflowResult × MultiAgentWorkflow :=
  match wf.retriever.search query none with
  | Except.error e => (Except.error e, wf)
  | Except.ok (retrieved_info, retriever1) =>
    let wf1 : MultiAgentWorkflow :=
      { wf with
        retriever := retriever1
        interaction_log := wf.interaction_log ++
          [LogEntry.text "retriever" (truncate200 retrieved_info)] }
    match wf1.synthesizer.synthesize query retrieved_info with
    | Except.error e => (Except.error e, wf1)
    | Except.ok (synthesized_response, synthesizer1) =>
      let wf2 : MultiAgentWorkflow :=
        { wf1 with
          synthesizer := synthesizer1
          interaction_log := wf1.interaction_log ++
            [LogEntry.text "synthesizer" (truncate200 synthesized_response)] }
      match wf2.critic.critique query synthesized_response with
      | Except.error e => (Except.error e, wf2)
      | Except.ok (critique0, critic1) =>
        let wf3 : MultiAgentWorkflow :=
          { wf2 with
            critic := critic1
            interaction_log := wf2.interaction_log ++ [LogEntry.crit "critic" critique0] }
        match runLoop query synthesized_response max_iterations (max_iterations - 1)
            { synthesizer := wf3.synthesizer, critic := wf3.critic,
              current_response := synthesized_response, critique := critique0,
              iterations := 1 } with
        | Except.error e => (Except.error e, wf3)
        | Except.ok fin =>
          (Except.ok {
            query := query
            final_response := fin.current_response
            quality_score := fin.critique.score
            critique := fin.critique.critique
            iterations := fin.iterations
            time_taken := 0
            interaction_log := wf3.interaction_log },
           { wf3 with synthesizer := fin.synthesizer, critic := fin.critic })

/-- Rendering of a list of messages as newline-terminated transcript lines
(used to state the shape of `get_conversation_context`). -/
def renderedLines : List AgentMessage → String
  | [] => ""
  | m :: rest => m.to_prompt_context ++ "\n" ++ renderedLines rest

/-- Test fixture: an agent with the given id/role and client oracle, fresh
history and empty call log, with the source's fallback system prompt. -/
def mkAgent (id role : String)
    (llm : Nat → String → String → Except GenerationError String) : BaseAgent :=
  { agent_id := id, role := role, model_name := "gpt-3.5-turbo", llm := llm,
    callLog := [], memory := { messages := [] },
    system_prompt := "You are a " ++ role ++ " agent in a multi-agent system." }

/-- Test fixture: a freshly constructed workflow over three client oracles. -/
def mkWorkflow (rl sl cl : Nat → String → String → Except GenerationError String) :
    MultiAgentWorkflow :=
  { retriever := mkAgent "retriever" "retriever" rl,
    synthesizer := mkAgent "synthesizer" "synthesizer" sl,
    critic := mkAgent "critic" "critic" cl,
    interaction_log := [] }

/-- Fixture: critic scores the first candidate 5 and the second 8. -/
def wf58 : MultiAgentWorkflow :=
  mkWorkflow (fun _ _ _ => Except.ok "R")
    (fun idx _ _ => Except.ok (if idx == 0 then "S0" else "S1"))
    (fun idx _ _ => Except.ok (if idx == 0 then "5" else "8"))

/-- Fixture: critic always scores 5; synthesizer outputs S0, S1, S2, ... -/
def wf55 : MultiAgentWorkflow :=
  mkWorkflow (fun _ _ _ => Except.ok "R")
    (fun idx _ _ => Except.ok (if idx == 0 then "S0" else if idx == 1 then "S1" else "S2"))
    (fun _ _ _ => Except.ok "5")

/-- Fixture: critic always scores 9 (loop never entered). -/
def wf9 : MultiAgentWorkflow :=
  mkWorkflow (fun _ _ _ => Except.ok "R")
    (fun _ _ _ => Except.ok "S0")
    (fun _ _ _ => Except.ok "9")

/-- Fixture: the retrieval client call times out. -/
def wfFail : MultiAgentWorkflow :=
  mkWorkflow (fun _ _ _ => Except.error GenerationError.timeout)
    (fun _ _ _ => Except.ok "S0")
    (fun _ _ _ => Except.ok "9")

/-- Fixture: a critic agent whose client reply contains no extractable digit. -/
def aCritNoScore : BaseAgent :=
  mkAgent "critic" "critic" (fun _ _ _ => Except.ok "unclear")

/-- Fixture: a plain agent whose client always answers "ok". -/
def aEcho : BaseAgent :=
  mkAgent "agent" "tester" (fun _ _ _ => Except.ok "ok")

/-- Fixture: an incoming message for `process`. -/
def msgIn : AgentMessage :=
  { sender := "user", recipient := "agent", message_type := MessageType.query,
    content := "hi", context := [("k", "v")], metadata := [], timestamp := 0 }

/-- The message of the spec's rendering test vector. -/
def msgQ1 : AgentMessage :=
  { sender := "a1", recipient := "a2", message_type := MessageType.query,
    content := "Query 1", context := [], metadata := [], timestamp := 0 }

/-- The response produced by the `process` witness run. -/
def respW : AgentMessage :=
  { sender := "agent", recipient := "user", message_type := MessageType.response,
    content := "ok", context := [("k", "v")],
    metadata := [("model", "gpt-3.5-turbo")], timestamp := 0 }

/-- The user prompt built by the `process` witness run. -/
def promptW : String :=
  "Previous conversation:\n[user -> agent]: hi\n" ++
    "\n\nCurrent message: " ++ "hi" ++ "\n\nYour response:"

/-- The state of `aEcho` after the `process` witness run. -/
def aEchoAfter : BaseAgent :=
  { aEcho with memory := { messages := [msgIn, respW] }, callLog := [(promptW, "ok")] }

/-- The critique result of the C9 witness run. -/
def critNoScoreRes : CritiqueResult :=
  { score := 7, critique := "unclear", issues := [], improvements := [] }

/-- The state of `aCritNoScore` after the C9 witness run. -/
def aCritNoScoreAfter : BaseAgent :=
  { aCritNoScore with callLog := [(critiquePrompt "q" "resp", "unclear")] }

/-- The result of the C1 witness run (`wf9`, critic always 9). -/
def resW9 : WorkflowResult :=
  { query := "q", final_response := "S0", quality_score := 9, critique := "9",
    iterations := 1, time_taken := 0,
    interaction_log := [LogEntry.text "retriever" "R", LogEntry.text "synthesizer" "S0",
      LogEntry.crit "critic" { score := 9, critique := "9", issues := [], improvements := [] }] }

/-- The result of runs on `wf55` (critic always 5) with `max_iterations = 3`. -/
def res55 : WorkflowResult :=
  { query := "q", final_response := "S2", quality_score := 5, critique := "5",
    iterations := 3, time_taken := 0,
    interaction_log := [LogEntry.text "retriever" "R", LogEntry.text "synthesizer" "S0",
      LogEntry.crit "critic" { score := 5, critique := "5", issues := [], improvements := [] }] }

/-- The result of the run on `wf58` (critic scores 5 then 8) with
`max_iterations = 2`. -/
def res58 : WorkflowResult :=
  { query := "q", final_response := "S1", quality_score := 8, critique := "8",
    iterations := 2, time_taken := 0,
    interaction_log := [LogEntry.text "retriever" "R", LogEntry.text "synthesizer" "S0",
      LogEntry.crit "critic" { score := 5, critique := "5", issues := [], improvements := [] }] }

/-- The result of the second C10 witness run (on the workflow state left by
the first `wf9` run): the instance log now holds both runs' entries. -/
def resW9b : WorkflowResult :=
  { query := "q2", final_response := "S0", quality_score := 9, critique := "9",
    iterations := 1, time_taken := 0,
    interaction_log := [LogEntry.text "retriever" "R", LogEntry.text "synthesizer" "S0",
      LogEntry.crit "critic" { score := 9, critique := "9", issues := [], improvements := [] },
      LogEntry.text "retriever" "R", LogEntry.text "synthesizer" "S0",
      LogEntry.crit "critic" { score := 9, critique := "9", issues := [], improvements := [] }] }

/-! ## Helper lemmas about the embedded operations -/

/-- A successful `search` records exactly one client call with the retrieval
prompt and returns the client's text. -/
theorem search_ok_spec (a : BaseAgent) (q : String)
    (src : Option (List (String × String))) (out : String) (a1 : BaseAgent)
    (h : a.search q src = Except.ok (out, a1)) :
    a1.callLog = a.callLog ++ [(searchPrompt q, out)] ∧
    a.llm a.callLog.length a.system_prompt (searchPrompt q) = Except.ok out := by
  unfold BaseAgent.search BaseAgent.invoke at h
  cases hl : a.llm a.callLog.length a.system_prompt (searchPrompt q) with
  | ok content =>
    rw [hl] at h
    simp only [Except.ok.injEq, Prod.mk.injEq] at h
    obtain ⟨hout, ha⟩ := h
    subst hout
    subst ha
    exact ⟨rfl, rfl⟩
  | error e =>
    rw [hl] at h
    simp at h

/-- A successful `synthesize` records exactly one client call with the
synthesis prompt built from its `retrieved_info` argument. -/
theorem synthesize_ok_spec (a : BaseAgent) (q ri out : String) (a1 : BaseAgent)
    (h : a.synthesize q ri = Except.ok (out, a1)) :
    a1.callLog = a.callLog ++ [(synthesizePrompt q ri, out)] ∧
    a.llm a.callLog.length a.system_prompt (synthesizePrompt q ri) = Except.ok out := by
  unfold BaseAgent.synthesize BaseAgent.invoke at h
  cases hl : a.llm a.callLog.length a.system_prompt (synthesizePrompt q ri) with
  | ok content =>
    rw [hl] at h
    simp only [Except.ok.injEq, Prod.mk.injEq] at h
    obtain ⟨hout, ha⟩ := h
    subst hout
    subst ha
    exact ⟨rfl, rfl⟩
  | error e =>
    rw [hl] at h
    simp at h

/-- A successful `critique` returns the raw client text with its extracted
score and empty issue lists, and records exactly one client call. -/
theorem critique_ok_spec (a : BaseAgent) (q resp : String) (res : CritiqueResult)
    (a1 : BaseAgent) (h : a.critique q resp = Except.ok (res, a1)) :
    ∃ t : String,
      res = { score := extractScore t, critique := t, issues := [], improvements := [] } ∧
      a1.callLog = a.callLog ++ [(critiquePrompt q resp, t)] ∧
      a.llm a.callLog.length a.system_prompt (critiquePrompt q resp) = Except.ok t := by
  unfold BaseAgent.critique BaseAgent.invoke at h
  cases hl : a.llm a.callLog.length a.system_prompt (critiquePrompt q resp) with
  | ok content =>
    rw [hl] at h
    simp only [Except.ok.injEq, Prod.mk.injEq] at h
    obtain ⟨hres, ha⟩ := h
    subst hres
    subst ha
    exact ⟨content, rfl, rfl, rfl⟩
  | error e =>
    rw [hl] at h
    simp at h

/-- The extracted score always lies in 1..10 (it is one of 5, 6, 7, 8, 9, 10). -/
theorem extractScore_bounds (t : String) : 1 ≤ extractScore t ∧ extractScore t ≤ 10 := by
  unfold extractScore
  repeat' split
  all_goals omega

/-- When none of the checked digit strings occurs in the first 50 characters,
the extraction falls back to the silent default 7. -/
theorem extractScore_default (t : String)
    (h10 : strContains (strTake t 50) "10" = false)
    (h9 : strContains (strTake t 50) "9" = false)
    (h8 : strContains (strTake t 50) "8" = false)
    (h6 : strContains (strTake t 50) "6" = false)
    (h5 : strContains (strTake t 50) "5" = false) :
    extractScore t = 7 := by
  unfold extractScore
  simp [h10, h9, h8, h6, h5]

/-- When the counter has already reached the cap, the loop exits immediately
whatever the fuel. -/
theorem runLoop_stop (q sr : String) (m fuel : Nat) (st : LoopState)
    (h : m ≤ st.iterations) :
    runLoop q sr m fuel st = Except.ok st := by
  cases fuel with
  | zero => rfl
  | succ f =>
    unfold runLoop
    rw [if_neg]
    intro hc
    omega

theorem runLoop_fuel_irrelevant (q sr : String) (m : Nat) :
    ∀ f1 f2 st, m ≤ st.iterations + f1 → m ≤ st.iterations + f2 →
      runLoop q sr m f1 st = runLoop q sr m f2 st := by
  intro f1
  induction f1 with
  | zero =>
    intro f2 st h1 h2
    rw [runLoop_stop q sr m f2 st (by omega)]
    rfl
  | succ f ih =>
    intro f2 st h1 h2
    cases f2 with
    | zero =>
      rw [runLoop_stop q sr m (f + 1) st (by omega)]
      rfl
    | succ g =>
      by_cases hc : st.critique.score < 7 ∧ st.iterations < m
      · cases hsyn : st.synthesizer.synthesize q
            (sr ++ "\n\nCritique: " ++ st.critique.critique) with
        | error e => simp only [runLoop, if_pos hc, hsyn]
        | ok p =>
          obtain ⟨cur, syn1⟩ := p
          cases hcrit : st.critic.critique q cur with
          | error e => simp only [runLoop, if_pos hc, hsyn, hcrit]
          | ok p2 =>
            obtain ⟨crit1, cr1⟩ := p2
            simp only [runLoop, if_pos hc, hsyn, hcrit]
            exact ih g
              { synthesizer := syn1, critic := cr1, current_response := cur,
                critique := crit1, iterations := st.iterations + 1 }
              (show m ≤ st.iterations + 1 + f by omega)
              (show m ≤ st.iterations + 1 + g by omega)
      · simp only [runLoop, if_neg hc]

/-- Master specification of a successful refinement loop: it extends the two
agents' call logs in lockstep, the iteration counter counts the appended
critiques, every loop synthesis prompt is built from the initial
`synthesized_response` plus the then-current critique text, every critique
that let the loop continue scored below 7, and the final critique is the
last one produced (or the incoming one if the loop body never ran). -/
theorem runLoop_ok_spec (q sr : String) (m : Nat) :
    ∀ fuel st fin, runLoop q sr m fuel st = Except.ok fin →
    ∃ newS newC : List (String × String),
      fin.synthesizer.callLog = st.synthesizer.callLog ++ newS ∧
      fin.critic.callLog = st.critic.callLog ++ newC ∧
      fin.iterations = st.iterations + newC.length ∧
      newS.map Prod.fst = ((st.critique.critique :: newC.map Prod.snd).dropLast).map
        (fun t => synthesizePrompt q (sr ++ "\n\nCritique: " ++ t)) ∧
      ((newC = [] ∧ fin = st) ∨
        (∃ front lastE, newC = front ++ [lastE] ∧ st.critique.score < 7 ∧
          (∀ e ∈ front, extractScore e.2 < 7) ∧
          fin.critique.critique = lastE.2 ∧ fin.critique.score = extractScore lastE.2)) := by
  intro fuel
  induction fuel with
  | zero =>
    intro st fin h
    simp only [runLoop, Except.ok.injEq] at h
    subst h
    exact ⟨[], [], by simp, by simp, by simp, by simp, Or.inl ⟨rfl, rfl⟩⟩
  | succ f ih =>
    intro st fin h
    by_cases hc : st.critique.score < 7 ∧ st.iterations < m
    · cases hsyn : st.synthesizer.synthesize q
          (sr ++ "\n\nCritique: " ++ st.critique.critique) with
      | error e =>
        simp only [runLoop, if_pos hc, hsyn] at h
        exact Except.noConfusion h
      | ok p =>
        obtain ⟨cur, syn1⟩ := p
        cases hcrit : st.critic.critique q cur with
        | error e =>
          simp only [runLoop, if_pos hc, hsyn, hcrit] at h
          exact Except.noConfusion h
        | ok p2 =>
          obtain ⟨crit1, cr1⟩ := p2
          simp only [runLoop, if_pos hc, hsyn, hcrit] at h
          obtain ⟨newS, newC, h1, h2, h3, h4, h5⟩ := ih _ fin h
          obtain ⟨hsynLog, -⟩ := synthesize_ok_spec _ _ _ _ _ hsyn
          obtain ⟨t, hres, hcritLog, -⟩ := critique_ok_spec _ _ _ _ _ hcrit
          subst hres
          dsimp only at h1 h2 h3 h4 h5
          refine ⟨(synthesizePrompt q (sr ++ "\n\nCritique: " ++ st.critique.critique), cur) :: newS,
                  (critiquePrompt q cur, t) :: newC, ?_, ?_, ?_, ?_, ?_⟩
          · rw [h1, hsynLog]
            simp
          · rw [h2, hcritLog]
            simp
          · simp only [List.length_cons]
            omega
          · simp only [List.map_cons]
            rw [List.dropLast_cons_of_ne_nil (by simp), List.map_cons, h4]
          · right
            rcases h5 with ⟨hnil, hfin⟩ | ⟨front, lastE, hsplit, hscore, hfront, hl1, hl2⟩
            · subst hnil
              refine ⟨[], (critiquePrompt q cur, t), by simp, hc.1, by simp, ?_, ?_⟩
              · rw [hfin]
              · rw [hfin]
            · refine ⟨(critiquePrompt q cur, t) :: front, lastE,
                by rw [hsplit]; rfl, hc.1, ?_, hl1, hl2⟩
              intro e he
              rcases List.mem_cons.mp he with rfl | hmem
              · exact hscore
              · exact hfront e hmem
    · simp only [runLoop, if_neg hc, Except.ok.injEq] at h
      subst h
      exact ⟨[], [], by simp, by simp, by simp, by simp, Or.inl ⟨rfl, rfl⟩⟩

/-- Bound and termination cause for a successful refinement loop: starting
within bounds and with enough fuel, the final counter never exceeds
`max_iterations`, and at exit either the last critique scored at least 7 or
the counter has reached `max_iterations`. -/
theorem runLoop_ok_bound (q sr : String) (m : Nat) :
    ∀ fuel st fin, runLoop q sr m fuel st = Except.ok fin →
    st.iterations ≤ m → m ≤ st.iterations + fuel →
    fin.iterations ≤ m ∧ (7 ≤ fin.critique.score ∨ fin.iterations = m) := by
  intro fuel
  induction fuel with
  | zero =>
    intro st fin h hle hfuel
    simp only [runLoop, Except.ok.injEq] at h
    subst h
    exact ⟨hle, Or.inr (by omega)⟩
  | succ f ih =>
    intro st fin h hle hfuel
    by_cases hc : st.critique.score < 7 ∧ st.iterations < m
    · cases hsyn : st.synthesizer.synthesize q
          (sr ++ "\n\nCritique: " ++ st.critique.critique) with
      | error e =>
        simp only [runLoop, if_pos hc, hsyn] at h
        exact Except.noConfusion h
      | ok p =>
        obtain ⟨cur, syn1⟩ := p
        cases hcrit : st.critic.critique q cur with
        | error e =>
          simp only [runLoop, if_pos hc, hsyn, hcrit] at h
          exact Except.noConfusion h
        | ok p2 =>
          obtain ⟨crit1, cr1⟩ := p2
          simp only [runLoop, if_pos hc, hsyn, hcrit] at h
          exact ih _ fin h (show st.iterations + 1 ≤ m by omega)
            (show m ≤ st.iterations + 1 + f by omega)
    · simp only [runLoop, if_neg hc, Except.ok.injEq] at h
      subst h
      rw [Classical.not_and_iff_or_not_not] at hc
      rcases hc with hc | hc
      · exact ⟨hle, Or.inl (by omega)⟩
      · exact ⟨hle, Or.inr (by omega)⟩

/-- Master specification of a successful `run`: the three call logs, the
interaction-log shape, the result fields, the loop's prompt discipline and
termination cause, assembled from the step and loop lemmas. -/
theorem run_ok_spec (wf : MultiAgentWorkflow) (q : String) (m : Nat)
    (res : WorkflowResult) (wf2 : MultiAgentWorkflow)
    (h : MultiAgentWorkflow.run wf q m = (Except.ok res, wf2)) :
    ∃ r s c loopS loopC,
      wf2.retriever.callLog = wf.retriever.callLog ++ [(searchPrompt q, r)] ∧
      wf2.synthesizer.callLog = wf.synthesizer.callLog ++ (synthesizePrompt q r, s) :: loopS ∧
      wf2.critic.callLog = wf.critic.callLog ++ (critiquePrompt q s, c) :: loopC ∧
      res.interaction_log = wf.interaction_log ++
        [LogEntry.text "retriever" (truncate200 r),
         LogEntry.text "synthesizer" (truncate200 s),
         LogEntry.crit "critic"
           { score := extractScore c, critique := c, issues := [], improvements := [] }] ∧
      wf2.interaction_log = res.interaction_log ∧
      res.query = q ∧ res.time_taken = 0 ∧
      res.iterations = 1 + loopC.length ∧
      loopS.map Prod.fst = ((c :: loopC.map Prod.snd).dropLast).map
        (fun t => synthesizePrompt q (s ++ "\n\nCritique: " ++ t)) ∧
      ((loopC = [] ∧ res.quality_score = extractScore c ∧ res.critique = c ∧
          res.final_response = s) ∨
        (∃ front lastE, loopC = front ++ [lastE] ∧ extractScore c < 7 ∧
          (∀ e ∈ front, extractScore e.2 < 7) ∧
          res.critique = lastE.2 ∧ res.quality_score = extractScore lastE.2)) ∧
      (1 ≤ m → res.iterations ≤ m ∧ (7 ≤ res.quality_score ∨ res.iterations = m)) := by
  unfold MultiAgentWorkflow.run at h
  cases hret : wf.retriever.search q none with
  | error e =>
    rw [hret] at h
    simp at h
  | ok p =>
    obtain ⟨ri, r1⟩ := p
    rw [hret] at h
    dsimp only at h
    cases hsyn : wf.synthesizer.synthesize q ri with
    | error e =>
      rw [hsyn] at h
      simp at h
    | ok p2 =>
      obtain ⟨sresp, s1⟩ := p2
      rw [hsyn] at h
      dsimp only at h
      cases hcrit : wf.critic.critique q sresp with
      | error e =>
        rw [hcrit] at h
        simp at h
      | ok p3 =>
        obtain ⟨crit0, c1⟩ := p3
        rw [hcrit] at h
        dsimp only at h
        cases hloop : runLoop q sresp m (m - 1)
            { synthesizer := s1, critic := c1, current_response := sresp,
              critique := crit0, iterations := 1 } with
        | error e =>
          rw [hloop] at h
          simp at h
        | ok fin =>
          rw [hloop] at h
          dsimp only at h
          simp only [Prod.mk.injEq, Except.ok.injEq] at h
          obtain ⟨hres, hwf2⟩ := h
          subst hres
          subst hwf2
          obtain ⟨hretLog, -⟩ := search_ok_spec _ _ _ _ _ hret
          obtain ⟨hsynLog, -⟩ := synthesize_ok_spec _ _ _ _ _ hsyn
          obtain ⟨t, hcrit0, hcritLog, -⟩ := critique_ok_spec _ _ _ _ _ hcrit
          subst hcrit0
          obtain ⟨newS, newC, l1, l2, l3, l4, l5⟩ := runLoop_ok_spec q sresp m _ _ _ hloop
          dsimp only at l1 l2 l3 l4 l5
          refine ⟨ri, sresp, t, newS, newC, ?_, ?_, ?_, ?_, rfl, rfl, rfl, ?_, ?_, ?_, ?_⟩
          · exact hretLog
          · dsimp only
            rw [l1, hsynLog]
            simp
          · dsimp only
            rw [l2, hcritLog]
            simp
          · dsimp only
            simp
          · dsimp only
            omega
          · exact l4
          · rcases l5 with ⟨hnil, hfin⟩ | ⟨front, lastE, hsplit, hscore, hfront, hl1, hl2⟩
            · subst hnil
              subst hfin
              exact Or.inl ⟨rfl, rfl, rfl, rfl⟩
            · exact Or.inr ⟨front, lastE, hsplit, hscore, hfront, hl1, hl2⟩
          · intro hm
            have hb := runLoop_ok_bound q sresp m (m - 1) _ _ hloop
              (by dsimp only; omega) (by dsimp only; omega)
            exact hb

/-- Folding the transcript-accumulation step over a message list appends the
rendered lines to the accumulator. -/
theorem foldl_render (l : List AgentMessage) : ∀ init : String,
    l.foldl (fun ctx msg => ctx ++ msg.to_prompt_context ++ "\n") init =
      init ++ renderedLines l := by
  induction l with
  | nil =>
    intro init
    simp [renderedLines]
  | cons x xs ih =>
    intro init
    rw [List.foldl_cons, ih]
    simp only [renderedLines, String.append_assoc]


/-- C5: the context view renders exactly the messages of `pySliceLast 10`
(the last 10 appended messages), which are at most 10, form a contiguous
final segment of the underlying log (hence appear in append order), and
appending only extends the log at the end, never reordering or dropping
earlier entries. -/
theorem claim_C5_context_window (hist : MessageHistory) (m : AgentMessage) :
    MessageHistory.get_conversation_context hist =
      (if hist.messages.isEmpty then "No previous conversation."
       else (pySliceLast 10 hist.messages).foldl
         (fun ctx msg => ctx ++ msg.to_prompt_context ++ "\n") "Previous conversation:\n") ∧
    (pySliceLast 10 hist.messages).length ≤ 10 ∧
    (∃ pre, hist.messages = pre ++ pySliceLast 10 hist.messages) ∧
    (hist.add_message m).messages = hist.messages ++ [m] := by
  refine ⟨rfl, ?_,
    ⟨hist.messages.take (hist.messages.length - 10),
      (List.take_append_drop _ _).symm⟩, rfl⟩
  simp only [pySliceLast, List.length_drop]
  omega

/-- C6 counterexample: on a one-message history the context view is not the
bare rendered line — the code prepends a header and terminates each line
with a newline. -/
theorem claim_C6_counterexample :
    MessageHistory.get_conversation_context { messages := [msgQ1] } ≠ "[a1 -> a2]: Query 1" ∧
    MessageHistory.get_conversation_context { messages := [msgQ1] } =
      "Previous conversation:\n[a1 -> a2]: Query 1\n" := by
  exact ⟨by decide, by decide⟩

/-- C6 (amended): a message renders exactly as `[sender -> recipient]: content`
(so the spec's test vector holds), and the context view of a non-empty
history is the header `"Previous conversation:\n"` followed by the last 10
messages as newline-terminated rendered lines (not the bare lines joined by
newlines); the empty history yields the sentinel string. -/
theorem claim_C6_amended (hist : MessageHistory) :
    AgentMessage.to_prompt_context msgQ1 = "[a1 -> a2]: Query 1" ∧
    MessageHistory.get_conversation_context hist =
      (if hist.messages.isEmpty then "No previous conversation."
       else "Previous conversation:\n" ++ renderedLines (pySliceLast 10 hist.messages)) := by
  refine ⟨by decide, ?_⟩
  unfold MessageHistory.get_conversation_context
  by_cases he : hist.messages.isEmpty
  · rw [if_pos he, if_pos he]
  · rw [if_neg he, if_neg he, foldl_render]

/-- C7: a successful `process` appends exactly the incoming message and the
response (in that order) to the agent's private history, and the response
is addressed back to the sender, typed `response`, carries the incoming
context map forward, and stamps the model identifier in its metadata. -/
theorem claim_C7_process (a : BaseAgent) (msg resp : AgentMessage) (now : Nat)
    (a1 : BaseAgent) (h : a.process msg now = Except.ok (resp, a1)) :
    a1.memory.messages = a.memory.messages ++ [msg, resp] ∧
    resp.recipient = msg.sender ∧
    resp.message_type = MessageType.response ∧
    resp.context = msg.context ∧
    resp.metadata = [("model", a.model_name)] := by
  unfold BaseAgent.process BaseAgent.invoke at h
  dsimp only at h
  cases hl : a.llm a.callLog.length a.system_prompt
      ((a.memory.add_message msg).get_conversation_context ++
        "\n\nCurrent message: " ++ msg.content ++ "\n\nYour response:") with
  | error e =>
    rw [hl] at h
    exact Except.noConfusion h
  | ok content =>
    rw [hl] at h
    dsimp only at h
    simp only [Except.ok.injEq, Prod.mk.injEq] at h
    obtain ⟨hresp, ha1⟩ := h
    subst hresp
    subst ha1
    refine ⟨?_, rfl, rfl, rfl, rfl⟩
    simp [MessageHistory.add_message]




theorem claim_C7_witness :
    aEchoAfter.memory.messages = aEcho.memory.messages ++ [msgIn, respW] ∧
    respW.recipient = msgIn.sender ∧
    respW.message_type = MessageType.response ∧
    respW.context = msgIn.context ∧
    respW.metadata = [("model", aEcho.model_name)] :=
  claim_C7_process aEcho msgIn respW 0 aEchoAfter (by rfl)

/-- C8: if the retrieval step's client call fails, `run` performs no
synthesis and no critique call (both call logs are untouched) and returns
the classified `GenerationError` unchanged to its caller. -/
theorem claim_C8_retrieval_failure (wf : MultiAgentWorkflow) (q : String) (m : Nat)
    (e : GenerationError)
    (h : wf.retriever.llm wf.retriever.callLog.length wf.retriever.system_prompt
        (searchPrompt q) = Except.error e) :
    MultiAgentWorkflow.run wf q m = (Except.error e, wf) ∧
    (MultiAgentWorkflow.run wf q m).2.synthesizer.callLog = wf.synthesizer.callLog ∧
    (MultiAgentWorkflow.run wf q m).2.critic.callLog = wf.critic.callLog := by
  have hrun : MultiAgentWorkflow.run wf q m = (Except.error e, wf) := by
    unfold MultiAgentWorkflow.run BaseAgent.search BaseAgent.invoke
    rw [h]
  exact ⟨hrun, by rw [hrun], by rw [hrun]⟩

theorem claim_C8_witness :
    MultiAgentWorkflow.run wfFail "q" 2 = (Except.error GenerationError.timeout, wfFail) ∧
    (MultiAgentWorkflow.run wfFail "q" 2).2.synthesizer.callLog = wfFail.synthesizer.callLog ∧
    (MultiAgentWorkflow.run wfFail "q" 2).2.critic.callLog = wfFail.critic.callLog :=
  claim_C8_retrieval_failure wfFail "q" 2 GenerationError.timeout (by rfl)

/-- C9: a successful `critique` always returns a score in 1..10, extracted
from the raw text by the substring heuristic; when none of the checked digit
strings occurs in the first 50 characters the silent default 7 is returned;
and in every case the `critique` field is exactly the full raw client text. -/
theorem claim_C9_critique_score (a : BaseAgent) (q resp : String)
    (res : CritiqueResult) (a1 : BaseAgent)
    (h : a.critique q resp = Except.ok (res, a1)) :
    1 ≤ res.score ∧ res.score ≤ 10 ∧
    res.score = extractScore res.critique ∧
    ((strContains (strTake res.critique 50) "10" = false ∧
      strContains (strTake res.critique 50) "9" = false ∧
      strContains (strTake res.critique 50) "8" = false ∧
      strContains (strTake res.critique 50) "6" = false ∧
      strContains (strTake res.critique 50) "5" = false) → res.score = 7) ∧
    a.llm a.callLog.length a.system_prompt (critiquePrompt q resp) = Except.ok res.critique := by
  obtain ⟨t, hres, hlog, hllm⟩ := critique_ok_spec _ _ _ _ _ h
  subst hres
  dsimp only
  refine ⟨(extractScore_bounds t).1, (extractScore_bounds t).2, rfl, ?_, hllm⟩
  intro hs
  obtain ⟨h10, h9, h8, h6, h5⟩ := hs
  exact extractScore_default t h10 h9 h8 h6 h5



theorem claim_C9_witness :
    1 ≤ critNoScoreRes.score ∧ critNoScoreRes.score ≤ 10 ∧
    critNoScoreRes.score = extractScore critNoScoreRes.critique ∧
    ((strContains (strTake critNoScoreRes.critique 50) "10" = false ∧
      strContains (strTake critNoScoreRes.critique 50) "9" = false ∧
      strContains (strTake critNoScoreRes.critique 50) "8" = false ∧
      strContains (strTake critNoScoreRes.critique 50) "6" = false ∧
      strContains (strTake critNoScoreRes.critique 50) "5" = false) →
        critNoScoreRes.score = 7) ∧
    aCritNoScore.llm aCritNoScore.callLog.length aCritNoScore.system_prompt
      (critiquePrompt "q" "resp") = Except.ok critNoScoreRes.critique :=
  claim_C9_critique_score aCritNoScore "q" "resp" critNoScoreRes aCritNoScoreAfter (by rfl)

/-- Unfolding equation for `runLoop` with zero fuel. -/
theorem runLoop_zero (q sr : String) (m : Nat) (st : LoopState) :
    runLoop q sr m 0 st = Except.ok st := rfl

/-- Unfolding equation for `runLoop` with positive fuel. -/
theorem runLoop_succ (q sr : String) (m fuel : Nat) (st : LoopState) :
    runLoop q sr m (fuel + 1) st =
      if st.critique.score < 7 ∧ st.iterations < m then
        match st.synthesizer.synthesize q (sr ++ "\n\nCritique: " ++ st.critique.critique) with
        | Except.error e => Except.error e
        | Except.ok (current_response, syn1) =>
          match st.critic.critique q current_response with
          | Except.error e => Except.error e
          | Except.ok (crit1, cr1) =>
            runLoop q sr m fuel
              { synthesizer := syn1, critic := cr1, current_response := current_response,
                critique := crit1, iterations := st.iterations + 1 }
      else Except.ok st := rfl


/-- C1: for `max_iterations ≥ 1`, a successful `run` performs exactly
`res.iterations ≤ max_iterations` critique evaluations (each recorded on the
critic's call log), every critique before the final one scored below 7 (so
the loop stops the first time a score ≥ 7 is observed), the final critique
determines `quality_score`, and at exit either that score is ≥ 7 or the
counter has reached `max_iterations`. -/
theorem claim_C1_loop_bound (wf : MultiAgentWorkflow) (q : String) (m : Nat)
    (res : WorkflowResult) (hm : 1 ≤ m)
    (h : (MultiAgentWorkflow.run wf q m).1 = Except.ok res) :
    ∃ evals front lastE,
      (MultiAgentWorkflow.run wf q m).2.critic.callLog = wf.critic.callLog ++ evals ∧
      evals.length = res.iterations ∧
      res.iterations ≤ m ∧
      evals = front ++ [lastE] ∧
      (∀ e ∈ front, extractScore e.2 < 7) ∧
      res.quality_score = extractScore lastE.2 ∧
      (7 ≤ res.quality_score ∨ res.iterations = m) := by
  have h' : MultiAgentWorkflow.run wf q m =
      (Except.ok res, (MultiAgentWorkflow.run wf q m).2) := by
    rw [← h]
  obtain ⟨r, s, c, loopS, loopC, a1, a2, a3, a4, a5, a6, a7, a8, a9, a10, a11⟩ :=
    run_ok_spec _ _ _ _ _ h'
  obtain ⟨hbound, hcause⟩ := a11 hm
  rcases a10 with ⟨hnil, hqs, hcrit, hfr⟩ | ⟨front, lastE, hsplit, hc7, hfront, hcrit, hqs⟩
  · subst hnil
    exact ⟨[(critiquePrompt q s, c)], [], (critiquePrompt q s, c), a3,
      by simp [a8], hbound, by simp, by simp, hqs, hcause⟩
  · refine ⟨(critiquePrompt q s, c) :: loopC, (critiquePrompt q s, c) :: front, lastE,
      a3, ?_, hbound, ?_, ?_, hqs, hcause⟩
    · simp only [List.length_cons, a8]
      omega
    · rw [hsplit]
      rfl
    · intro e he
      rcases List.mem_cons.mp he with rfl | hmem
      · exact hc7
      · exact hfront e hmem

theorem claim_C1_witness :
    1 ≤ 2 ∧
    (∃ evals front lastE,
      (MultiAgentWorkflow.run wf9 "q" 2).2.critic.callLog = wf9.critic.callLog ++ evals ∧
      evals.length = resW9.iterations ∧
      resW9.iterations ≤ 2 ∧
      evals = front ++ [lastE] ∧
      (∀ e ∈ front, extractScore e.2 < 7) ∧
      resW9.quality_score = extractScore lastE.2 ∧
      (7 ≤ resW9.quality_score ∨ resW9.iterations = 2)) :=
  ⟨by decide, claim_C1_loop_bound wf9 "q" 2 resW9 (by decide) (by rfl)⟩


set_option maxRecDepth 8000 in
/-- C2 counterexample: on `wf55` with `max_iterations = 3` the loop runs two
refinements; the synthesizer's outputs are S0, S1, S2, yet both refinement
synthesis calls receive the first synthesis output "S0" (plus critique) as
`retrieved_info` — the second one does not receive the most recent output
"S1", contradicting the claim for second and later refinement iterations. -/
theorem claim_C2_counterexample :
    (MultiAgentWorkflow.run wf55 "q" 3).2.synthesizer.callLog.map Prod.snd =
      ["S0", "S1", "S2"] ∧
    (MultiAgentWorkflow.run wf55 "q" 3).2.synthesizer.callLog.map Prod.fst =
      [synthesizePrompt "q" "R",
       synthesizePrompt "q" ("S0" ++ "\n\nCritique: " ++ "5"),
       synthesizePrompt "q" ("S0" ++ "\n\nCritique: " ++ "5")] ∧
    synthesizePrompt "q" ("S0" ++ "\n\nCritique: " ++ "5") ≠
      synthesizePrompt "q" ("S1" ++ "\n\nCritique: " ++ "5") :=
  ⟨by decide, by decide, by decide⟩

/-- C2 (amended): on every Refining transition the refinement synthesis call
receives, as its `retrieved_info` argument, the initial candidate response
(the first synthesis output of the run — the source never updates the
`synthesized_response` variable inside the loop) concatenated with the
then-current critique text; this coincides with the most recent synthesis
output only on the first refinement iteration. -/
theorem claim_C2_amended (wf : MultiAgentWorkflow) (q : String) (m : Nat)
    (res : WorkflowResult)
    (h : (MultiAgentWorkflow.run wf q m).1 = Except.ok res) :
    ∃ r s c loopS loopC,
      (MultiAgentWorkflow.run wf q m).2.synthesizer.callLog =
        wf.synthesizer.callLog ++ (synthesizePrompt q r, s) :: loopS ∧
      (MultiAgentWorkflow.run wf q m).2.critic.callLog =
        wf.critic.callLog ++ (critiquePrompt q s, c) :: loopC ∧
      loopS.map Prod.fst = ((c :: loopC.map Prod.snd).dropLast).map
        (fun t => synthesizePrompt q (s ++ "\n\nCritique: " ++ t)) := by
  have h' : MultiAgentWorkflow.run wf q m =
      (Except.ok res, (MultiAgentWorkflow.run wf q m).2) := by
    rw [← h]
  obtain ⟨r, s, c, loopS, loopC, a1, a2, a3, a4, a5, a6, a7, a8, a9, a10, a11⟩ :=
    run_ok_spec _ _ _ _ _ h'
  exact ⟨r, s, c, loopS, loopC, a2, a3, a9⟩

theorem claim_C2_witness :
    ∃ r s c loopS loopC,
      (MultiAgentWorkflow.run wf55 "q" 3).2.synthesizer.callLog =
        wf55.synthesizer.callLog ++ (synthesizePrompt "q" r, s) :: loopS ∧
      (MultiAgentWorkflow.run wf55 "q" 3).2.critic.callLog =
        wf55.critic.callLog ++ (critiquePrompt "q" s, c) :: loopC ∧
      loopS.map Prod.fst = ((c :: loopC.map Prod.snd).dropLast).map
        (fun t => synthesizePrompt "q" (s ++ "\n\nCritique: " ++ t)) :=
  claim_C2_amended wf55 "q" 3 res55 (by rfl)


/-- C3 counterexample: on `wf58` with `max_iterations = 2` the run makes five
agent invocations (1 retrieval, 2 syntheses, 2 critiques — the call logs
below), but the returned interaction log holds only 3 entries: the loop's
synthesize and critique invocations are never logged, so the log does not
contain one entry per invocation. -/
theorem claim_C3_counterexample :
    (MultiAgentWorkflow.run wf58 "q" 2).1 = Except.ok res58 ∧
    res58.interaction_log.length = 3 ∧
    (MultiAgentWorkflow.run wf58 "q" 2).2.retriever.callLog.length = 1 ∧
    (MultiAgentWorkflow.run wf58 "q" 2).2.synthesizer.callLog.length = 2 ∧
    (MultiAgentWorkflow.run wf58 "q" 2).2.critic.callLog.length = 2 :=
  ⟨by rfl, by decide, by decide, by decide, by decide⟩

/-- C3 (amended): a successful `run` appends exactly three entries to the
interaction log — one for the initial retriever, synthesizer and critic
invocations only, the former two truncated by `truncate200` (200 characters
plus ellipsis) and the critic's holding the full structured
`CritiqueResult` — while the synthesize and critique invocations made inside
the refinement loop (the `loopS`/`loopC` tails of the call logs) produce no
log entries. -/
theorem claim_C3_amended (wf : MultiAgentWorkflow) (q : String) (m : Nat)
    (res : WorkflowResult)
    (h : (MultiAgentWorkflow.run wf q m).1 = Except.ok res) :
    ∃ r s c loopS loopC,
      (MultiAgentWorkflow.run wf q m).2.retriever.callLog =
        wf.retriever.callLog ++ [(searchPrompt q, r)] ∧
      (MultiAgentWorkflow.run wf q m).2.synthesizer.callLog =
        wf.synthesizer.callLog ++ (synthesizePrompt q r, s) :: loopS ∧
      (MultiAgentWorkflow.run wf q m).2.critic.callLog =
        wf.critic.callLog ++ (critiquePrompt q s, c) :: loopC ∧
      res.interaction_log = wf.interaction_log ++
        [LogEntry.text "retriever" (truncate200 r),
         LogEntry.text "synthesizer" (truncate200 s),
         LogEntry.crit "critic"
           { score := extractScore c, critique := c, issues := [], improvements := [] }] ∧
      (MultiAgentWorkflow.run wf q m).2.interaction_log = res.interaction_log := by
  have h' : MultiAgentWorkflow.run wf q m =
      (Except.ok res, (MultiAgentWorkflow.run wf q m).2) := by
    rw [← h]
  obtain ⟨r, s, c, loopS, loopC, a1, a2, a3, a4, a5, a6, a7, a8, a9, a10, a11⟩ :=
    run_ok_spec _ _ _ _ _ h'
  exact ⟨r, s, c, loopS, loopC, a1, a2, a3, a4, a5⟩

theorem claim_C3_witness :
    ∃ r s c loopS loopC,
      (MultiAgentWorkflow.run wf58 "q" 2).2.retriever.callLog =
        wf58.retriever.callLog ++ [(searchPrompt "q", r)] ∧
      (MultiAgentWorkflow.run wf58 "q" 2).2.synthesizer.callLog =
        wf58.synthesizer.callLog ++ (synthesizePrompt "q" r, s) :: loopS ∧
      (MultiAgentWorkflow.run wf58 "q" 2).2.critic.callLog =
        wf58.critic.callLog ++ (critiquePrompt "q" s, c) :: loopC ∧
      res58.interaction_log = wf58.interaction_log ++
        [LogEntry.text "retriever" (truncate200 r),
         LogEntry.text "synthesizer" (truncate200 s),
         LogEntry.crit "critic"
           { score := extractScore c, critique := c, issues := [], improvements := [] }] ∧
      (MultiAgentWorkflow.run wf58 "q" 2).2.interaction_log = res58.interaction_log :=
  claim_C3_amended wf58 "q" 2 res58 (by rfl)


/-- C10: `run` never resets the instance interaction log — each successful
run appends its three step entries, the per-run result exposes the whole
instance log, and a second run on the returned workflow state yields a
result whose log still starts with everything the first run recorded. -/
theorem claim_C10_log_accumulates (wf : MultiAgentWorkflow) (q1 : String) (m1 : Nat)
    (res1 : WorkflowResult) (q2 : String) (m2 : Nat) (res2 : WorkflowResult)
    (h1 : (MultiAgentWorkflow.run wf q1 m1).1 = Except.ok res1)
    (h2 : (MultiAgentWorkflow.run (MultiAgentWorkflow.run wf q1 m1).2 q2 m2).1 =
      Except.ok res2) :
    ∃ new1 new2,
      new1 ≠ [] ∧ new2 ≠ [] ∧
      res1.interaction_log = wf.interaction_log ++ new1 ∧
      (MultiAgentWorkflow.run wf q1 m1).2.interaction_log = wf.interaction_log ++ new1 ∧
      res2.interaction_log = wf.interaction_log ++ new1 ++ new2 ∧
      (MultiAgentWorkflow.run (MultiAgentWorkflow.run wf q1 m1).2 q2 m2).2.interaction_log =
        wf.interaction_log ++ new1 ++ new2 := by
  have h1' : MultiAgentWorkflow.run wf q1 m1 =
      (Except.ok res1, (MultiAgentWorkflow.run wf q1 m1).2) := by
    rw [← h1]
  have h2' : MultiAgentWorkflow.run (MultiAgentWorkflow.run wf q1 m1).2 q2 m2 =
      (Except.ok res2, (MultiAgentWorkflow.run (MultiAgentWorkflow.run wf q1 m1).2 q2 m2).2) := by
    rw [← h2]
  obtain ⟨r1, s1, c1, lS1, lC1, a1, a2, a3, a4, a5, a6, a7, a8, a9, a10, a11⟩ :=
    run_ok_spec _ _ _ _ _ h1'
  obtain ⟨r2, s2, c2, lS2, lC2, b1, b2, b3, b4, b5, b6, b7, b8, b9, b10, b11⟩ :=
    run_ok_spec _ _ _ _ _ h2'
  refine ⟨[LogEntry.text "retriever" (truncate200 r1),
           LogEntry.text "synthesizer" (truncate200 s1),
           LogEntry.crit "critic"
             { score := extractScore c1, critique := c1, issues := [], improvements := [] }],
          [LogEntry.text "retriever" (truncate200 r2),
           LogEntry.text "synthesizer" (truncate200 s2),
           LogEntry.crit "critic"
             { score := extractScore c2, critique := c2, issues := [], improvements := [] }],
          by simp, by simp, a4, ?_, ?_, ?_⟩
  · rw [a5, a4]
  · rw [b4, a5, a4]
  · rw [b5, b4, a5, a4]

theorem claim_C10_witness :
    ∃ new1 new2,
      new1 ≠ [] ∧ new2 ≠ [] ∧
      resW9.interaction_log = wf9.interaction_log ++ new1 ∧
      (MultiAgentWorkflow.run wf9 "q" 2).2.interaction_log = wf9.interaction_log ++ new1 ∧
      resW9b.interaction_log = wf9.interaction_log ++ new1 ++ new2 ∧
      (MultiAgentWorkflow.run (MultiAgentWorkflow.run wf9 "q" 2).2 "q2" 2).2.interaction_log =
        wf9.interaction_log ++ new1 ++ new2 :=
  claim_C10_log_accumulates wf9 "q" 2 resW9 "q2" 2 resW9b (by rfl) (by rfl)

/-- C4: if the critic scores the first candidate 5 and the second 8 (and all
client calls succeed), a run with `max_iterations = 2` returns iterations =
2 and `final_response` equal to the second synthesis output — the refinement
produced after the score-5 critique. -/
theorem claim_C4_two_iterations (wf : MultiAgentWorkflow) (q r s1 t1 s2 t2 : String)
    (hr : wf.retriever.llm wf.retriever.callLog.length wf.retriever.system_prompt
      (searchPrompt q) = Except.ok r)
    (hs1 : wf.synthesizer.llm wf.synthesizer.callLog.length wf.synthesizer.system_prompt
      (synthesizePrompt q r) = Except.ok s1)
    (ht1 : wf.critic.llm wf.critic.callLog.length wf.critic.system_prompt
      (critiquePrompt q s1) = Except.ok t1)
    (hscore1 : extractScore t1 = 5)
    (hs2 : wf.synthesizer.llm (wf.synthesizer.callLog.length + 1) wf.synthesizer.system_prompt
      (synthesizePrompt q (s1 ++ "\n\nCritique: " ++ t1)) = Except.ok s2)
    (ht2 : wf.critic.llm (wf.critic.callLog.length + 1) wf.critic.system_prompt
      (critiquePrompt q s2) = Except.ok t2)
    (hscore2 : extractScore t2 = 8) :
    (MultiAgentWorkflow.run wf q 2).1 = Except.ok
      { query := q, final_response := s2, quality_score := 8, critique := t2,
        iterations := 2, time_taken := 0,
        interaction_log := wf.interaction_log ++
          [LogEntry.text "retriever" (truncate200 r),
           LogEntry.text "synthesizer" (truncate200 s1),
           LogEntry.crit "critic"
             { score := 5, critique := t1, issues := [], improvements := [] }] } := by
  unfold MultiAgentWorkflow.run BaseAgent.search BaseAgent.synthesize BaseAgent.critique
    BaseAgent.invoke
  rw [hr]
  dsimp only
  rw [hs1]
  dsimp only
  rw [ht1]
  dsimp only
  rw [hscore1]
  rw [show (2 : Nat) - 1 = 0 + 1 from rfl]
  rw [runLoop_succ]
  dsimp only
  rw [if_pos (show (5 : Nat) < 7 ∧ (1 : Nat) < 2 from by decide)]
  unfold BaseAgent.synthesize BaseAgent.invoke
  dsimp only
  simp only [List.length_append, List.length_singleton]
  rw [hs2]
  dsimp only
  unfold BaseAgent.critique BaseAgent.invoke
  dsimp only
  simp only [List.length_append, List.length_singleton]
  rw [ht2]
  dsimp only
  rw [hscore2]
  rw [runLoop_zero]
  dsimp only
  simp [List.append_assoc]

theorem claim_C4_witness :
    (MultiAgentWorkflow.run wf58 "q" 2).1 = Except.ok
      { query := "q", final_response := "S1", quality_score := 8, critique := "8",
        iterations := 2, time_taken := 0,
        interaction_log := wf58.interaction_log ++
          [LogEntry.text "retriever" (truncate200 "R"),
           LogEntry.text "synthesizer" (truncate200 "S0"),
           LogEntry.crit "critic"
             { score := 5, critique := "5", issues := [], improvements := [] }] } :=
  claim_C4_two_iterations wf58 "q" "R" "S0" "5" "S1" "8"
    (by rfl) (by rfl) (by rfl) (by decide) (by rfl) (by rfl) (by decide)
